import Mathlib

/-!
Verification of the reactive entity/context runtime of this repository
(gpui2 `TestAppContext` façade, `image_viewer` consumers).

The files under `crates/` give the `TestAppContext` wrapper, the
`ImageInfo` status item and the image-viewer settings.  The interior of
gpui's `AppContext` (entity store, observer bus, globals, windows,
dispatcher, async context) is reached from here only through its calls;
those parts are modelled from the spec, with each such definition marked
`Modelled from the spec:` in its doc comment.  Entity values are
represented as natural numbers, entity/subscription/window/global
identities as natural numbers, and closures as Lean functions.
-/

namespace Gpui

abbrev EntityId := Nat
abbrev SubId := Nat

/-- Modelled from the spec: the `AppContext` owning container — entity
store (identity ↦ value), observer registrations in registration order,
a log of delivered "changed" notifications, the type-keyed global slots
and the window table.  (`crates/gpui2/src/app/app.rs` is not part of the
visible excerpt; only its `TestAppContext` callers are.) -/
structure AppContext where
  nextEntityId : Nat
  entities : List (EntityId × Nat)
  nextSubId : Nat
  observers : List (SubId × EntityId)
  deliveries : List (SubId × EntityId)
  globals : List (Nat × Nat)
  windows : List (Nat × Nat)
deriving Repr, DecidableEq

/-- The empty application state, as produced by `AppContext::new`. -/
def emptyApp : AppContext :=
  { nextEntityId := 0, entities := [], nextSubId := 0, observers := []
    deliveries := [], globals := [], windows := [] }

/-- First-match association-list lookup, used for the entity store, the
global slots and the window table. -/
def assocFind : List (Nat × Nat) → Nat → Option Nat
  | [], _ => none
  | (k, v) :: rest, h => if k = h then some v else assocFind rest h

def lookupEntity (st : AppContext) (h : EntityId) : Option Nat :=
  assocFind st.entities h

def setEntity (l : List (EntityId × Nat)) (h : EntityId) (v : Nat) :
    List (EntityId × Nat) :=
  l.map (fun p => if p.1 = h then (h, v) else p)

/-- Modelled from the spec: `build_model` allocates a fresh identity,
stores the constructed value and returns the strong handle. -/
def build_model (st : AppContext) (v : Nat) : AppContext × EntityId :=
  ({ st with
      entities := st.entities ++ [(st.nextEntityId, v)]
      nextEntityId := st.nextEntityId + 1 },
   st.nextEntityId)

/-- Modelled from the spec: `observe(handle, callback)` appends a fresh
registration for `h` at the end of the registration list (registration
order = list order) and returns the Subscription token. -/
def observe (st : AppContext) (h : EntityId) : AppContext × SubId :=
  ({ st with
      observers := st.observers ++ [(st.nextSubId, h)]
      nextSubId := st.nextSubId + 1 },
   st.nextSubId)

/-- Modelled from the spec: dropping a `Subscription` guard deregisters
the listener — its entry is removed from the registration list. -/
def dropSubscription (st : AppContext) (s : SubId) : AppContext :=
  { st with observers := st.observers.filter (fun p => p.1 ≠ s) }

/-- The observers currently registered on entity `h`, in registration
order. -/
def observersOf (st : AppContext) (h : EntityId) : List SubId :=
  (st.observers.filter (fun p => p.2 = h)).map Prod.fst

/-- Modelled from the spec: after an update of `h` returns, the pending
"changed" notification is flushed to every observer of `h`, in
registration order; each delivery is appended to the log. -/
def flushNotifications (st : AppContext) (h : EntityId) : AppContext :=
  { st with
      deliveries := st.deliveries ++ (observersOf st h).map (fun s => (s, h)) }

inductive UpdateError where
  | staleHandle
deriving Repr, DecidableEq

/-- Modelled from the spec: `update_model` resolves the handle (failing
on a stale identity), runs the update closure with exclusive access to
the value and read access to the pre-update context, writes the result
back, and only then flushes the "changed" notifications for that
identity. -/
def update_model (st : AppContext) (h : EntityId)
    (f : Nat → AppContext → Nat) : Except UpdateError (AppContext × Nat) :=
  match lookupEntity st h with
  | none => .error .staleHandle
  | some v =>
      let r := f v st
      let st' := { st with entities := setEntity st.entities h r }
      .ok (flushNotifications st' h, r)

/-- A step of the observer scenario of §8 of the spec: an `update_model`
call on the distinguished handle, a fresh `observe` registration on it,
or dropping a `Subscription` guard. -/
inductive StoreOp where
  | update (f : Nat → Nat)
  | obsReg (s : SubId)
  | obsDrop (s : SubId)

/-- Runs a sequence of store operations against `st` on handle `h`,
using the model's `update_model`, the registration step of `observe` and
`dropSubscription`.  A stale-handle failure leaves the state unchanged
(on a live handle the branch is dead). -/
def runOps (st : AppContext) (h : EntityId) : List StoreOp → AppContext
  | [] => st
  | .update f :: rest =>
      match update_model st h (fun v _ => f v) with
      | .ok (st', _) => runOps st' h rest
      | .error _ => runOps st h rest
  | .obsReg s :: rest =>
      runOps { st with observers := st.observers ++ [(s, h)] } h rest
  | .obsDrop s :: rest => runOps (dropSubscription st s) h rest

/-- The delivery schedule the spec prescribes: each update delivers one
"changed" notification to every currently registered observer, in
registration order; `obs` is the current registration list. -/
def deliverySpec (obs : List SubId) : List StoreOp → List SubId
  | [] => []
  | .update _ :: rest => obs ++ deliverySpec obs rest
  | .obsReg s :: rest => deliverySpec (obs ++ [s]) rest
  | .obsDrop s :: rest => deliverySpec (obs.filter (fun t => t ≠ s)) rest

/-- The number of deliveries the spec prescribes for subscription `s`
over the operation sequence, where `cnt` is how many registrations of
`s` are currently live: each update contributes `cnt`, registering `s`
increments it, dropping `s` clears it. -/
def specCount (s : SubId) (cnt : Nat) : List StoreOp → Nat
  | [] => 0
  | .update _ :: rest => cnt + specCount s cnt rest
  | .obsReg t :: rest => specCount s (if t = s then cnt + 1 else cnt) rest
  | .obsDrop t :: rest => specCount s (if t = s then 0 else cnt) rest

theorem lookup_setEntity (l : List (EntityId × Nat)) (h : EntityId) (v w : Nat)
    (hl : assocFind l h = some v) : assocFind (setEntity l h w) h = some w := by
  induction l with
  | nil => simp [assocFind] at hl
  | cons p rest ih =>
      obtain ⟨a, b⟩ := p
      simp only [assocFind] at hl
      by_cases hp : a = h
      · subst hp
        show assocFind ((if a = a then (a, w) else (a, b)) ::
          setEntity rest a w) a = some w
        rw [if_pos rfl]
        simp [assocFind]
      · rw [if_neg hp] at hl
        show assocFind ((if a = h then (h, w) else (a, b)) ::
          setEntity rest h w) h = some w
        rw [if_neg hp]
        show assocFind ((a, b) :: setEntity rest h w) h = some w
        simp only [assocFind]
        rw [if_neg hp]
        exact ih hl

theorem observersOf_update (st : AppContext) (h : EntityId) (r : Nat) :
    observersOf { st with entities := setEntity st.entities h r } h =
      observersOf st h := rfl

theorem observersOf_flush (st : AppContext) (h h' : EntityId) :
    observersOf (flushNotifications st h') h = observersOf st h := rfl

theorem observersOf_drop (st : AppContext) (h : EntityId) (s : SubId) :
    observersOf (dropSubscription st s) h =
      (observersOf st h).filter (fun t => t ≠ s) := by
  simp only [observersOf, dropSubscription, List.filter_map, List.filter_filter]
  congr 1
  apply List.filter_congr
  intro p _
  simp [Function.comp, Bool.and_comm]

theorem update_model_ok (st : AppContext) (h : EntityId)
    (f : Nat → AppContext → Nat) (v : Nat) (hv : lookupEntity st h = some v) :
    update_model st h f = .ok
      (flushNotifications
        { st with entities := setEntity st.entities h (f v st) } h, f v st) := by
  simp only [update_model]
  rw [hv]

theorem observersOf_append (st : AppContext) (h : EntityId) (s : SubId) :
    observersOf { st with observers := st.observers ++ [(s, h)] } h =
      observersOf st h ++ [s] := by
  simp [observersOf, List.filter_append]

theorem flush_deliveries (st : AppContext) (h : EntityId) (r : Nat) :
    (flushNotifications
        { st with entities := setEntity st.entities h r } h).deliveries =
      st.deliveries ++ (observersOf st h).map (fun s => (s, h)) := rfl

/-- Characterization of the model's delivery log: running any operation
sequence on a live handle appends exactly the spec-prescribed delivery
schedule to the log. -/
theorem runOps_deliveries (ops : List StoreOp) :
    ∀ (st : AppContext) (h : EntityId) (v : Nat),
    lookupEntity st h = some v →
    (runOps st h ops).deliveries =
      st.deliveries ++
        (deliverySpec (observersOf st h) ops).map (fun s => (s, h)) := by
  induction ops with
  | nil => intro st h v _; simp [runOps, deliverySpec]
  | cons op rest ih =>
      intro st h v hv
      cases op with
      | update f =>
          simp only [runOps]
          rw [update_model_ok st h _ v hv]
          rw [ih (flushNotifications
              { st with entities := setEntity st.entities h (f v) } h) h (f v)
            (by
              show assocFind (setEntity st.entities h (f v)) h = some (f v)
              exact lookup_setEntity st.entities h v (f v) hv)]
          rw [flush_deliveries, observersOf_flush, observersOf_update]
          simp only [deliverySpec, List.map_append, List.append_assoc]
      | obsReg s =>
          simp only [runOps]
          rw [ih { st with observers := st.observers ++ [(s, h)] } h v
            (by exact hv)]
          rw [observersOf_append st h s]
          rfl
      | obsDrop s =>
          simp only [runOps]
          rw [ih (dropSubscription st s) h v (by exact hv)]
          rw [observersOf_drop st h s]
          rfl

/-- The spec-prescribed schedule delivers to subscription `s` exactly
`specCount` many notifications. -/
theorem count_deliverySpec (s : SubId) (ops : List StoreOp) :
    ∀ (obs : List SubId),
    (deliverySpec obs ops).count s = specCount s (obs.count s) ops := by
  induction ops with
  | nil => intro obs; simp [deliverySpec, specCount]
  | cons op rest ih =>
      intro obs
      cases op with
      | update f => simp [deliverySpec, specCount, List.count_append, ih]
      | obsReg t =>
          simp only [deliverySpec, specCount]
          rw [ih]
          by_cases ht : t = s
          · subst ht
            simp [List.count_append]
          · simp [List.count_append, List.count_singleton, ht]
      | obsDrop t =>
          simp only [deliverySpec, specCount]
          rw [ih]
          by_cases ht : t = s
          · subst ht
            have hz : (obs.filter (fun x => x ≠ t)).count t = 0 := by
              rw [List.count_eq_zero]
              intro hmem
              have := List.of_mem_filter hmem
              simp at this
            rw [hz, if_pos rfl]
          · have hk : (obs.filter (fun x => x ≠ t)).count s = obs.count s := by
              apply List.count_filter
              simpa using fun hst => ht (Eq.symm hst)
            rw [hk, if_neg ht]

/-- C1: for every sequence of `build_model` followed by interleaved
`observe` registrations, subscription drops and `update_model` calls on
the same handle, the delivery log is exactly the spec schedule — each
update delivers one "changed" notification to every observer registered
(and not dropped) before that update, in registration order — and the
number of deliveries to a given subscription equals the number of
updates for which it was live: N when it is live across all N updates,
zero once its registration has been dropped. -/
theorem c1_observer_notification_contract (v0 : Nat) (ops : List StoreOp)
    (s : SubId) :
    (runOps (build_model emptyApp v0).1 (build_model emptyApp v0).2
        ops).deliveries =
      (deliverySpec [] ops).map
        (fun t => (t, (build_model emptyApp v0).2)) ∧
    (((runOps (build_model emptyApp v0).1 (build_model emptyApp v0).2
        ops).deliveries).map Prod.fst).count s = specCount s 0 ops := by
  have hlive : lookupEntity (build_model emptyApp v0).1
      (build_model emptyApp v0).2 = some v0 := rfl
  constructor
  · rw [runOps_deliveries ops (build_model emptyApp v0).1
      (build_model emptyApp v0).2 v0 hlive]
    simp [build_model, emptyApp, observersOf]
  · rw [runOps_deliveries ops (build_model emptyApp v0).1
      (build_model emptyApp v0).2 v0 hlive]
    have hmap : (((build_model emptyApp v0).1.deliveries ++
        (deliverySpec (observersOf (build_model emptyApp v0).1
          (build_model emptyApp v0).2) ops).map
            (fun t => (t, (build_model emptyApp v0).2))).map
              Prod.fst) = deliverySpec [] ops := by
      simp only [build_model, emptyApp, observersOf, List.map_map,
        List.nil_append, List.filter_nil, List.map_nil]
      exact List.map_id' (deliverySpec [] ops)
    rw [hmap, count_deliverySpec]
    rfl

theorem specCount_zero (s : SubId) (ops : List StoreOp)
    (hno : ∀ t, StoreOp.obsReg t ∈ ops → t ≠ s) : specCount s 0 ops = 0 := by
  induction ops with
  | nil => rfl
  | cons op rest ih =>
      cases op with
      | update f =>
          simp only [specCount, Nat.zero_add]
          exact ih (fun t ht => hno t (List.mem_cons_of_mem _ ht))
      | obsReg t =>
          have hts : t ≠ s := hno t (List.mem_cons_self _ _)
          simp only [specCount, if_neg hts]
          exact ih (fun u hu => hno u (List.mem_cons_of_mem _ hu))
      | obsDrop t =>
          simp only [specCount, ite_self]
          exact ih (fun u hu => hno u (List.mem_cons_of_mem _ hu))

/-- C3: a successful `update_model` runs the update closure against the
pre-update context — in particular against a delivery log to which no
notification of this update has yet been appended, so no observer
callback runs while the closure is executing — and the post-update log
is the pre-update log followed by this update's notifications to the
entity's observers in registration order. -/
theorem c3_notifications_deferred_past_update (st : AppContext)
    (h : EntityId) (f : Nat → AppContext → Nat) (v : Nat)
    (hv : lookupEntity st h = some v) :
    ∃ st', update_model st h f = .ok (st', f v st) ∧
      st'.deliveries =
        st.deliveries ++ (observersOf st h).map (fun s => (s, h)) := by
  refine ⟨_, update_model_ok st h f v hv, ?_⟩
  exact flush_deliveries st h (f v st)

/-- Witness for C3 at a concrete input: one freshly built entity holding
3, updated by an increment closure. -/
theorem c3_witness :
    ∃ st', update_model (build_model emptyApp 3).1 0 (fun v _ => v + 1) =
        .ok (st', 4) ∧
      st'.deliveries = (build_model emptyApp 3).1.deliveries ++
        (observersOf (build_model emptyApp 3).1 0).map (fun s => (s, 0)) :=
  c3_notifications_deferred_past_update (build_model emptyApp 3).1 0
    (fun v _ => v + 1) 3 rfl

/-- C8: dropping a `Subscription` guard deregisters the listener — over
any subsequent operation sequence that does not re-register it, the
number of deliveries to that callback does not grow past what was
already in the log. -/
theorem c8_dropped_subscription_zero_deliveries (st : AppContext)
    (h : EntityId) (v : Nat) (s : SubId) (ops : List StoreOp)
    (hv : lookupEntity st h = some v)
    (hno : ∀ t, StoreOp.obsReg t ∈ ops → t ≠ s) :
    (((runOps (dropSubscription st s) h ops).deliveries).map
        Prod.fst).count s =
      ((st.deliveries).map Prod.fst).count s := by
  rw [runOps_deliveries ops (dropSubscription st s) h v (by exact hv)]
  rw [observersOf_drop st h s]
  have hdel : (dropSubscription st s).deliveries = st.deliveries := rfl
  rw [hdel, List.map_append, List.count_append]
  have hmap : ((deliverySpec ((observersOf st h).filter (fun t => t ≠ s))
      ops).map (fun t => (t, h))).map Prod.fst =
      deliverySpec ((observersOf st h).filter (fun t => t ≠ s)) ops := by
    rw [List.map_map]
    exact List.map_id' _
  rw [hmap, count_deliverySpec]
  have hcnt : (((observersOf st h).filter (fun t => t ≠ s)).count s) = 0 := by
    rw [List.count_eq_zero]
    intro hmem
    have := List.of_mem_filter hmem
    simp at this
  rw [hcnt, specCount_zero s ops hno, Nat.add_zero]

/-- Witness for C8 at a concrete input: build an entity holding 5,
register observer 0, drop it, then run one further update — the observer
receives nothing. -/
theorem c8_witness :
    (((runOps
        (dropSubscription
          (observe (build_model emptyApp 5).1 (build_model emptyApp 5).2).1 0)
        (build_model emptyApp 5).2
        [StoreOp.update (fun v => v + 1)]).deliveries).map Prod.fst).count 0 =
      ((((observe (build_model emptyApp 5).1
        (build_model emptyApp 5).2).1).deliveries).map Prod.fst).count 0 :=
  c8_dropped_subscription_zero_deliveries
    (observe (build_model emptyApp 5).1 (build_model emptyApp 5).2).1
    (build_model emptyApp 5).2 5 0 [StoreOp.update (fun v => v + 1)] rfl
    (by intro t ht; simp at ht)

inductive TestError where
  | borrowMutPanic
  | staleHandle
  | unwrapPanic
  | missingGlobalPanic
  | appReleased
deriving Repr, DecidableEq

/-- The shared application cell of `TestAppContext`
(`Rc<RefCell<AppContext>>`): the app state plus the RefCell's
mutable-borrow flag.  `borrow_mut` on an already mutably borrowed cell
panics (`BorrowMutError`). -/
structure AppCell where
  borrowed : Bool
  app : AppContext
deriving Repr, DecidableEq

/-- `TestAppContext::update_model`: takes `self.app.borrow_mut()` — which
panics when the cell is already mutably borrowed — and then runs
`AppContext::update_model` on the borrowed state, releasing the borrow
when the call returns. -/
def test_update_model (cell : AppCell) (h : EntityId)
    (f : Nat → AppContext → Nat) : Except TestError (AppCell × Nat) :=
  if cell.borrowed then .error .borrowMutPanic
  else
    match update_model cell.app h f with
    | .error .staleHandle => .error .staleHandle
    | .ok (app', r) => .ok ({ borrowed := false, app := app' }, r)

/-- The re-entrant scenario of the spec: an outer
`TestAppContext::update_model` whose update closure calls
`TestAppContext::update_model` again on the same cell and the same
handle.  While the closure runs, the outer RefCell mutable borrow is
held (`borrowed := true`); the nested call's `borrow_mut` therefore
panics, and the panic unwinds the outer call before its write-back ever
happens. -/
def reentrant_update (cell : AppCell) (h : EntityId) (g : Nat → Nat) :
    Except TestError (AppCell × Nat) :=
  if cell.borrowed then .error .borrowMutPanic
  else
    let held : AppCell := { cell with borrowed := true }
    match test_update_model held h (fun v _ => g v) with
    | .error e => .error e
    | .ok (cell', r) => .ok ({ cell' with borrowed := false }, r)

/-- The entity value observable after the re-entrant attempt: a panic
leaves the cell exactly as it was (no write-back ran), a success leaves
the value of the returned cell. -/
def valueAfterReentrant (cell : AppCell) (h : EntityId) (g : Nat → Nat) :
    Option Nat :=
  match reentrant_update cell h g with
  | .error _ => lookupEntity cell.app h
  | .ok (cell', _) => lookupEntity cell'.app h

/-- C2: a re-entrant `update_model` on the same identity from within its
own still-active update fails deterministically — the nested call (and
with it the whole re-entrant attempt) aborts with the RefCell
mutable-borrow panic — and the entity's value is left uncorrupted. -/
theorem c2_reentrant_update_fails (cell : AppCell) (h : EntityId)
    (g : Nat → Nat) (hb : cell.borrowed = false) :
    reentrant_update cell h g = .error .borrowMutPanic ∧
    valueAfterReentrant cell h g = lookupEntity cell.app h := by
  have hre : reentrant_update cell h g = .error .borrowMutPanic := by
    simp [reentrant_update, test_update_model, hb]
  refine ⟨hre, ?_⟩
  simp [valueAfterReentrant, hre]

/-- Witness for C2 at a concrete input: an unborrowed cell holding one
freshly built entity with value 7, re-entered with an increment
closure. -/
theorem c2_witness :
    reentrant_update { borrowed := false, app := (build_model emptyApp 7).1 }
        0 (fun v => v + 1) = .error .borrowMutPanic ∧
    valueAfterReentrant { borrowed := false, app := (build_model emptyApp 7).1 }
        0 (fun v => v + 1) =
      lookupEntity (build_model emptyApp 7).1 0 :=
  c2_reentrant_update_fails
    { borrowed := false, app := (build_model emptyApp 7).1 } 0
    (fun v => v + 1) rfl

inductive WindowError where
  | windowNotFound
deriving Repr, DecidableEq

/-- Modelled from the spec: `AppContext::read_window` — looks the window
up by id and fails with a result failure when the id is unknown.
(`crates/gpui2/src/app/app.rs` is not part of the visible excerpt.) -/
def read_window (st : AppContext) (wid : Nat) (read : Nat → Nat) :
    Except WindowError Nat :=
  match assocFind st.windows wid with
  | none => .error .windowNotFound
  | some w => .ok (read w)

/-- Modelled from the spec: `AppContext::update_window` — same contract
as entity update applied to the window-identified resource; a result
failure on an unknown id. -/
def update_window (st : AppContext) (wid : Nat) (upd : Nat → Nat) :
    Except WindowError (AppContext × Nat) :=
  match assocFind st.windows wid with
  | none => .error .windowNotFound
  | some w =>
      .ok ({ st with windows := setEntity st.windows wid (upd w) }, upd w)

/-- `TestAppContext::read_window` (lines 78–85): borrows the cell and
calls `AppContext::read_window(handle.id, read).unwrap()` — the `unwrap`
turns the result failure for an unknown window id into a panic. -/
def test_read_window (cell : AppCell) (wid : Nat) (read : Nat → Nat) :
    Except TestError Nat :=
  match read_window cell.app wid read with
  | .error _ => .error .unwrapPanic
  | .ok r => .ok r

/-- `TestAppContext::update_window` (lines 87–94): borrows the cell
mutably and calls `AppContext::update_window(handle.id, update).unwrap()`. -/
def test_update_window (cell : AppCell) (wid : Nat) (upd : Nat → Nat) :
    Except TestError (AppCell × Nat) :=
  match update_window cell.app wid upd with
  | .error _ => .error .unwrapPanic
  | .ok (app', r) => .ok ({ cell with app := app' }, r)

/-- C7 counterexample: on an application with no windows, the
`TestAppContext` window operations do not surface a result failure to
their caller — the `.unwrap()` in both wrappers turns the unknown-id
failure into a panic, i.e. a crash. -/
theorem c7_counterexample_unwrap_panics :
    test_read_window { borrowed := false, app := emptyApp } 0 (fun w => w) =
      .error .unwrapPanic ∧
    test_update_window { borrowed := false, app := emptyApp } 0
        (fun w => w + 1) =
      .error .unwrapPanic := by
  constructor <;> rfl

/-- C7 (amended): on an unknown window id the underlying
`AppContext::read_window` and `AppContext::update_window` fail with a
result failure surfaced to their immediate caller; the `TestAppContext`
wrappers unwrap that result, so at the wrapper level an unknown window
id is a panic, not a returned failure. -/
theorem c7_window_ops_unknown_id (st : AppContext) (wid : Nat)
    (read : Nat → Nat) (upd : Nat → Nat)
    (hw : assocFind st.windows wid = none) :
    read_window st wid read = .error .windowNotFound ∧
    update_window st wid upd = .error .windowNotFound ∧
    (∀ b, test_read_window { borrowed := b, app := st } wid read =
      .error .unwrapPanic) ∧
    (∀ b, test_update_window { borrowed := b, app := st } wid upd =
      .error .unwrapPanic) := by
  have hr : read_window st wid read = .error .windowNotFound := by
    simp [read_window, hw]
  have hu : update_window st wid upd = .error .windowNotFound := by
    simp [update_window, hw]
  refine ⟨hr, hu, fun b => ?_, fun b => ?_⟩
  · simp [test_read_window, hr]
  · simp [test_update_window, hu]

/-- Witness for the amended C7 at a concrete input: the empty
application and window id 0. -/
theorem c7_witness :
    read_window emptyApp 0 (fun w => w) = .error .windowNotFound ∧
    update_window emptyApp 0 (fun w => w + 1) = .error .windowNotFound ∧
    (∀ b, test_read_window { borrowed := b, app := emptyApp } 0 (fun w => w) =
      .error .unwrapPanic) ∧
    (∀ b, test_update_window { borrowed := b, app := emptyApp } 0
        (fun w => w + 1) = .error .unwrapPanic) :=
  c7_window_ops_unknown_id emptyApp 0 (fun w => w) (fun w => w + 1) rfl

/-- Modelled from the spec: `AppContext::has_global` — whether a global
of the given type key is set. -/
def has_global (st : AppContext) (k : Nat) : Bool :=
  (assocFind st.globals k).isSome

/-- Modelled from the spec: `AppContext::try_global` — the soft
(optional-returning) accessor. -/
def try_global (st : AppContext) (k : Nat) : Option Nat :=
  assocFind st.globals k

/-- Modelled from the spec: `AppContext::global` — the hard accessor,
which panics when the global of that type is absent. -/
def globalAccess (st : AppContext) (k : Nat) : Except TestError Nat :=
  match assocFind st.globals k with
  | none => .error .missingGlobalPanic
  | some g => .ok g

/-- `TestAppContext::has_global` (lines 104–107): borrows the cell and
delegates. -/
def test_has_global (cell : AppCell) (k : Nat) : Bool :=
  has_global cell.app k

/-- `TestAppContext::read_global` (lines 109–112): borrows the cell and
runs `read(app.global(), &app)` — panics when the global is absent. -/
def test_read_global (cell : AppCell) (k : Nat)
    (read : Nat → AppContext → Nat) : Except TestError Nat :=
  match globalAccess cell.app k with
  | .error e => .error e
  | .ok g => .ok (read g cell.app)

/-- `TestAppContext::try_read_global` (lines 114–120): borrows the cell
and maps `read` over `lock.try_global()?` — absence yields `none`, never
a panic. -/
def test_try_read_global (cell : AppCell) (k : Nat)
    (read : Nat → AppContext → Nat) : Option Nat :=
  (try_global cell.app k).map (fun g => read g cell.app)

/-- C6: `has_global` is true exactly when a global of the type is set;
`try_read_global` returns `none` on absence and `some` of the read
callback's result on presence, never panicking; `read_global` on an
absent global is the hard failure (panic).  The caller picks the soft or
the hard contract. -/
theorem c6_global_slot_contracts (cell : AppCell) (k : Nat)
    (read : Nat → AppContext → Nat) :
    (test_has_global cell k = true ↔
      ∃ g, assocFind cell.app.globals k = some g) ∧
    (assocFind cell.app.globals k = none →
      test_try_read_global cell k read = none ∧
      test_read_global cell k read = .error .missingGlobalPanic) ∧
    (∀ g, assocFind cell.app.globals k = some g →
      test_try_read_global cell k read = some (read g cell.app) ∧
      test_read_global cell k read = .ok (read g cell.app)) := by
  refine ⟨?_, fun habs => ?_, fun g hg => ?_⟩
  · simp [test_has_global, has_global, Option.isSome_iff_exists]
  · constructor
    · simp [test_try_read_global, try_global, habs]
    · simp [test_read_global, globalAccess, habs]
  · constructor
    · simp [test_try_read_global, try_global, hg]
    · simp [test_read_global, globalAccess, hg]

/-- Witness for C6 at concrete inputs: an application with no globals
(both accessors report absence, the hard one as a panic) and one with
global 3 ↦ 40 (both report the value). -/
theorem c6_witness :
    (test_try_read_global { borrowed := false, app := emptyApp } 3
        (fun g _ => g + 2) = none ∧
      test_read_global { borrowed := false, app := emptyApp } 3
        (fun g _ => g + 2) = .error .missingGlobalPanic) ∧
    (test_try_read_global
        { borrowed := false, app := { emptyApp with globals := [(3, 40)] } } 3
        (fun g _ => g + 2) = some 42 ∧
      test_read_global
        { borrowed := false, app := { emptyApp with globals := [(3, 40)] } } 3
        (fun g _ => g + 2) = .ok 42) :=
  ⟨(c6_global_slot_contracts { borrowed := false, app := emptyApp } 3
      (fun g _ => g + 2)).2.1 rfl,
   (c6_global_slot_contracts
      { borrowed := false, app := { emptyApp with globals := [(3, 40)] } } 3
      (fun g _ => g + 2)).2.2 40 rfl⟩

/-- The `TestAppContext` handle object: the strong `Rc` to the shared app
cell (by pointer identity) plus the two executor clones (by the
dispatcher they wrap). -/
structure TestAppContextHandle where
  app : Nat
  background_executor : Nat
  foreground_executor : Nat
deriving Repr, DecidableEq

/-- The weak reference produced by `Rc::downgrade`: the same cell
identity, without owning it. -/
structure WeakAppCell where
  cellId : Nat
deriving Repr, DecidableEq

/-- `AsyncAppContext`: the weak app reference plus clones of both
executors, exactly the three fields built by `to_async`. -/
structure AsyncAppContext where
  app : WeakAppCell
  background_executor : Nat
  foreground_executor : Nat
deriving Repr, DecidableEq

/-- `TestAppContext::to_async` (lines 130–136): `Rc::downgrade(&self.app)`
plus clones of both executors. -/
def to_async (t : TestAppContextHandle) : AsyncAppContext :=
  { app := { cellId := t.app }
    background_executor := t.background_executor
    foreground_executor := t.foreground_executor }

/-- Modelled from the spec: the world holding the application cell —
`some` while strong references keep it alive, `none` once the
application has been torn down (upgrading the weak reference then
fails). -/
abbrev RcWorld := Option AppCell

/-- Modelled from the spec: `AsyncAppContext::update` — upgrade the weak
reference first; on a dead application fail immediately and leave the
world untouched. -/
def async_update (w : RcWorld) (f : AppContext → AppContext × Nat) :
    RcWorld × Except TestError Nat :=
  match w with
  | none => (none, .error .appReleased)
  | some cell =>
      let (app', r) := f cell.app
      (some { cell with app := app' }, .ok r)

/-- Modelled from the spec: `AsyncAppContext::update_model` — upgrade the
weak reference first; on a dead application fail immediately with no
side effects. -/
def async_update_model (w : RcWorld) (h : EntityId)
    (f : Nat → AppContext → Nat) : RcWorld × Except TestError Nat :=
  match w with
  | none => (none, .error .appReleased)
  | some cell =>
      match update_model cell.app h f with
      | .error .staleHandle => (some cell, .error .staleHandle)
      | .ok (app', r) => (some { cell with app := app' }, .ok r)

/-- Modelled from the spec: `AsyncAppContext::read_window` — upgrade the
weak reference first; on a dead application fail immediately with no
side effects. -/
def async_read_window (w : RcWorld) (wid : Nat) (read : Nat → Nat) :
    RcWorld × Except TestError Nat :=
  match w with
  | none => (none, .error .appReleased)
  | some cell =>
      match read_window cell.app wid read with
      | .error .windowNotFound => (some cell, .error .unwrapPanic)
      | .ok r => (some cell, .ok r)

/-- Modelled from the spec: `AsyncAppContext::spawn` — upgrade the weak
reference first; on a dead application fail immediately instead of
scheduling anything. -/
def async_spawn (w : RcWorld) (taskId : Nat) :
    RcWorld × Except TestError Nat :=
  match w with
  | none => (none, .error .appReleased)
  | some cell => (some cell, .ok taskId)

/-- C5: the façade built by `to_async` holds exactly the downgraded
(non-owning) app reference and clones of the two executors, and every
operation on it — `update`, `update_model`, `read_window`, `spawn` —
fails immediately once the application has been dropped, leaving the
world (entities, windows, globals) untouched. -/
theorem c5_async_facade_weak_and_fallible (t : TestAppContextHandle)
    (h : EntityId) (f : Nat → AppContext → Nat)
    (g : AppContext → AppContext × Nat) (wid : Nat) (read : Nat → Nat)
    (taskId : Nat) :
    (to_async t).app.cellId = t.app ∧
    (to_async t).background_executor = t.background_executor ∧
    (to_async t).foreground_executor = t.foreground_executor ∧
    async_update none g = (none, .error .appReleased) ∧
    async_update_model none h f = (none, .error .appReleased) ∧
    async_read_window none wid read = (none, .error .appReleased) ∧
    async_spawn none taskId = (none, .error .appReleased) := by
  refine ⟨rfl, rfl, rfl, rfl, rfl, rfl, rfl⟩

/-- Modelled from the spec: a task in the virtual scheduler — its id and
the simulated delays at its successive suspension points. -/
structure SimTask where
  id : Nat
  delays : List Nat
deriving Repr, DecidableEq

/-- `TestDispatcher`: the deterministic test dispatcher is seeded with a
pseudo-random seed; `wallClock` records the real time at creation, which
the virtual run loop never consults. -/
structure TestDispatcher where
  seed : Nat
  wallClock : Nat
deriving Repr, DecidableEq

/-- One step of the dispatcher's pseudo-random generator (a 64-bit
linear congruential generator). -/
def lcgNext (s : Nat) : Nat :=
  (6364136223846793005 * s + 1442695040888963407) % (2 ^ 64)

/-- The earliest virtual wake time among the pending entries. -/
def minWakeTime : List (Nat × Nat × List Nat) → Nat
  | [] => 0
  | [e] => e.1
  | e :: rest => min e.1 (minWakeTime rest)

/-- Removes the `k`-th pending entry whose wake time equals `m`,
returning it and the remaining queue in order. -/
def removeReady (m : Nat) : Nat → List (Nat × Nat × List Nat) →
    Option ((Nat × Nat × List Nat) × List (Nat × Nat × List Nat))
  | _, [] => none
  | k, e :: rest =>
      if e.1 = m then
        if k = 0 then some (e, rest)
        else
          match removeReady m (k - 1) rest with
          | some (x, l) => some (x, e :: l)
          | none => none
      else
        match removeReady m k rest with
        | some (x, l) => some (x, e :: l)
        | none => none

/-- Modelled from the spec: the virtual run loop — repeatedly pick, among
the entries with the earliest virtual wake time, the one selected by the
seeded generator; a task with no remaining suspension points completes,
otherwise it is re-queued at its next virtual wake time.  `fuel` bounds
the number of steps. -/
def runLoop : Nat → Nat → List (Nat × Nat × List Nat) → List Nat
  | 0, _, _ => []
  | _ + 1, _, [] => []
  | fuel + 1, rng, e :: rest =>
      let q := e :: rest
      let m := minWakeTime q
      let cnt := (q.filter (fun x => x.1 = m)).length
      match removeReady m (rng % cnt) q with
      | none => []
      | some ((_, tid, ds), remaining) =>
          match ds with
          | [] => tid :: runLoop fuel (lcgNext rng) remaining
          | d :: ds' => runLoop fuel (lcgNext rng) ((m + d, tid, ds') :: remaining)

/-- Modelled from the spec: running the dispatcher's virtual run loop to
completion over a sequence of spawned tasks with simulated delays — the
observed completion order. -/
def completionOrder (d : TestDispatcher) (tasks : List SimTask) : List Nat :=
  runLoop (tasks.foldl (fun acc t => acc + t.delays.length + 1) 0) d.seed
    (tasks.map (fun t =>
      match t.delays with
      | [] => (0, t.id, ([] : List Nat))
      | d0 :: ds => (d0, t.id, ds)))

/-- `TestAppContext::new` (lines 42–57): one dispatcher is wrapped in an
`Arc` and the very same dispatcher is handed to the background and the
foreground executor. -/
def testAppContextNew (cellId dispatcherId : Nat) : TestAppContextHandle :=
  { app := cellId
    background_executor := dispatcherId
    foreground_executor := dispatcherId }

/-- C4: the virtual scheduler is a deterministic function of the seed and
the operation sequence — two dispatchers with the same seed (created at
arbitrary, possibly different real times) observe the identical task
completion order over the same spawned tasks with the same simulated
delays; and `TestAppContext::new` drives both executors from that single
dispatcher. -/
theorem c4_deterministic_scheduler (d1 d2 : TestDispatcher)
    (tasks : List SimTask) (cellId dispatcherId : Nat)
    (hs : d1.seed = d2.seed) :
    completionOrder d1 tasks = completionOrder d2 tasks ∧
    (testAppContextNew cellId dispatcherId).background_executor =
      (testAppContextNew cellId dispatcherId).foreground_executor := by
  constructor
  · simp only [completionOrder, hs]
  · rfl

/-- Witness for C4 at concrete inputs: two dispatchers with seed 42 but
different creation wall clocks, three tasks with mixed delays. -/
theorem c4_witness :
    completionOrder { seed := 42, wallClock := 0 }
        [{ id := 1, delays := [3, 1] }, { id := 2, delays := [2] },
          { id := 3, delays := [] }] =
      completionOrder { seed := 42, wallClock := 987654 }
        [{ id := 1, delays := [3, 1] }, { id := 2, delays := [2] },
          { id := 3, delays := [] }] ∧
    (testAppContextNew 0 5).background_executor =
      (testAppContextNew 0 5).foreground_executor :=
  c4_deterministic_scheduler { seed := 42, wallClock := 0 }
    { seed := 42, wallClock := 987654 }
    [{ id := 1, delays := [3, 1] }, { id := 2, delays := [2] },
      { id := 3, delays := [] }] 0 5 rfl

end Gpui

namespace ImageViewer

/-- `ImageFileSizeUnitType` (image_info.rs): the display-unit preference
global, defaulting to `Binary`. -/
inductive ImageFileSizeUnitType where
  | Binary
  | Decimal
deriving Repr, DecidableEq

/-- `ImageFileSizeUnit` (image_viewer_settings.rs): the unit enum nested
in `ImageViewerSettings`. -/
inductive ImageFileSizeUnit where
  | Binary
  | Decimal
deriving Repr, DecidableEq

/-- `ImageViewerSettings` (image_viewer_settings.rs): the settings record
with its unit field. -/
structure ImageViewerSettings where
  unit : ImageFileSizeUnit
deriving Repr, DecidableEq

/-- The settings sources of a settings type, abstracted to the outcome of
`SettingsSources::json_merge` — the merged content or a merge error —
which is all either `load` implementation inspects. -/
structure SettingsSources (α : Type) where
  json_merge : Except String α

/-- `ImageFileSizeUnitType::load` (image_info.rs lines 23–28):
`sources.json_merge().or_else(|_| Ok(Self::Binary))`. -/
def ImageFileSizeUnitType.load
    (sources : SettingsSources ImageFileSizeUnitType) :
    Except String ImageFileSizeUnitType :=
  match sources.json_merge with
  | .ok v => .ok v
  | .error _ => .ok .Binary

/-- `ImageViewerSettings::load` (image_viewer_settings.rs lines 25–30):
`sources.json_merge()` — the merge error propagates to the caller. -/
def ImageViewerSettings.load (sources : SettingsSources ImageViewerSettings) :
    Except String ImageViewerSettings :=
  sources.json_merge

/-- C9: `ImageFileSizeUnitType::load` is total over its settings sources
— it returns `Ok` on every input, falling back to the `Binary` default
whenever the JSON merge fails — while `ImageViewerSettings::load`
propagates the merge outcome, and so the merge error, to its caller
unchanged. -/
theorem c9_load_error_contract (s1 : SettingsSources ImageFileSizeUnitType)
    (s2 : SettingsSources ImageViewerSettings) :
    (∃ v, ImageFileSizeUnitType.load s1 = .ok v) ∧
    (∀ e, s1.json_merge = .error e →
      ImageFileSizeUnitType.load s1 = .ok .Binary) ∧
    ImageViewerSettings.load s2 = s2.json_merge := by
  refine ⟨?_, fun e he => ?_, rfl⟩
  · cases hm : s1.json_merge with
    | ok v => exact ⟨v, by simp [ImageFileSizeUnitType.load, hm]⟩
    | error e => exact ⟨.Binary, by simp [ImageFileSizeUnitType.load, hm]⟩
  · simp [ImageFileSizeUnitType.load, he]

/-- Witness for C9 at concrete inputs: a failing merge falls back to
`Binary` for the unit type and propagates for the viewer settings. -/
theorem c9_witness :
    (∃ v, ImageFileSizeUnitType.load ⟨.error "bad json"⟩ = .ok v) ∧
    ImageFileSizeUnitType.load ⟨.error "bad json"⟩ = .ok .Binary ∧
    ImageViewerSettings.load ⟨.error "bad json"⟩ = .error "bad json" :=
  ⟨(c9_load_error_contract ⟨.error "bad json"⟩ ⟨.error "bad json"⟩).1,
   (c9_load_error_contract ⟨.error "bad json"⟩ ⟨.error "bad json"⟩).2.1
      "bad json" rfl,
   (c9_load_error_contract ⟨.error "bad json"⟩ ⟨.error "bad json"⟩).2.2⟩

/-- The rendering of `ImageInfo::format_file_size`, by branch: the
sub-threshold branch keeps its exact decimal rendering
`format!("{}B", size)`; the `{:.1}`-formatted floating-point KB/MB
branches are abstracted to the selected unit. -/
inductive FileSizeText where
  | bytes (rendered : String)
  | kilobytes
  | megabytes
deriving Repr, DecidableEq

/-- `ImageInfo::format_file_size` (image_info.rs lines 76–97): a
three-way split on exact integer thresholds — 1024 and 1024·1024 for
`Binary`, 1000 and 1000·1000 for `Decimal`. -/
def format_file_size (size : Nat) (u : ImageFileSizeUnitType) :
    FileSizeText :=
  match u with
  | .Binary =>
      if size < 1024 then .bytes (toString size ++ "B")
      else if size < 1024 * 1024 then .kilobytes
      else .megabytes
  | .Decimal =>
      if size < 1000 then .bytes (toString size ++ "B")
      else if size < 1000 * 1000 then .kilobytes
      else .megabytes

/-- C10: `format_file_size` selects its unit by exact integer thresholds
depending on the unit-type argument — under `Binary` a size below 1024
renders as the exact decimal byte count suffixed "B", sizes in
[1024, 1024·1024) in KB and larger ones in MB; under `Decimal` the same
split uses 1000 and 1000·1000 — and the same size (1000) renders under
different units for the two preferences. -/
theorem c10_format_file_size_thresholds (size : Nat) :
    (size < 1024 →
      format_file_size size .Binary = .bytes (toString size ++ "B")) ∧
    (1024 ≤ size → size < 1024 * 1024 →
      format_file_size size .Binary = .kilobytes) ∧
    (1024 * 1024 ≤ size → format_file_size size .Binary = .megabytes) ∧
    (size < 1000 →
      format_file_size size .Decimal = .bytes (toString size ++ "B")) ∧
    (1000 ≤ size → size < 1000 * 1000 →
      format_file_size size .Decimal = .kilobytes) ∧
    (1000 * 1000 ≤ size → format_file_size size .Decimal = .megabytes) ∧
    (format_file_size 1000 .Binary = .bytes (toString 1000 ++ "B") ∧
      format_file_size 1000 .Decimal = .kilobytes) := by
  refine ⟨fun h1 => ?_, fun h2 h3 => ?_, fun h4 => ?_, fun h5 => ?_,
    fun h6 h7 => ?_, fun h8 => ?_, by decide, by decide⟩
  · simp [format_file_size, h1]
  · simp [format_file_size, Nat.not_lt.mpr h2, h3]
  · have hn1 : ¬ size < 1024 := by omega
    have hn2 : ¬ size < 1024 * 1024 := by omega
    simp [format_file_size, hn1, hn2]
  · simp [format_file_size, h5]
  · simp [format_file_size, Nat.not_lt.mpr h6, h7]
  · have hn1 : ¬ size < 1000 := by omega
    have hn2 : ¬ size < 1000 * 1000 := by omega
    simp [format_file_size, hn1, hn2]

/-- Witness for C10 at concrete inputs: 500 bytes, 2048 bytes and two
megabytes under `Binary`; 999 bytes, 500 000 bytes and 1 500 000 bytes
under `Decimal`. -/
theorem c10_witness :
    format_file_size 500 .Binary = .bytes (toString 500 ++ "B") ∧
    format_file_size 2048 .Binary = .kilobytes ∧
    format_file_size 2097152 .Binary = .megabytes ∧
    format_file_size 999 .Decimal = .bytes (toString 999 ++ "B") ∧
    format_file_size 500000 .Decimal = .kilobytes ∧
    format_file_size 1500000 .Decimal = .megabytes :=
  ⟨(c10_format_file_size_thresholds 500).1 (by decide),
   (c10_format_file_size_thresholds 2048).2.1 (by decide) (by decide),
   (c10_format_file_size_thresholds 2097152).2.2.1 (by decide),
   (c10_format_file_size_thresholds 999).2.2.2.1 (by decide),
   (c10_format_file_size_thresholds 500000).2.2.2.2.1 (by decide) (by decide),
   (c10_format_file_size_thresholds 1500000).2.2.2.2.2.1 (by decide)⟩

end ImageViewer
